import Mathlib

/-!
Verification of the BinanceFuturesBot signal engine.

The definitions below are a shallow embedding of the Python sources under
`bot/`.  Prices, quantities, imbalances and PnL values are modelled as exact
rationals (`ℚ`); Python `float` arithmetic is replaced by exact rational
arithmetic, and `round(x, n)` is modelled as exact rounding to `n` decimal
digits (round half away from zero at the exact tie, which never occurs at the
values the theorems touch).  Dictionaries that may lack a key are modelled
with `Option`.  Each embedded function carries a reference to the source file
and function it mirrors.
-/

namespace BinanceBot

/-- Rounding to 8 decimal digits, the model of Python `round(x, 8)`. -/
def round8 (q : ℚ) : ℚ := (round (q * 100000000) : ℤ) / 100000000

/-- Rounding to 4 decimal digits, the model of Python `round(x, 4)`. -/
def round4 (q : ℚ) : ℚ := (round (q * 10000) : ℤ) / 10000

/-! Constants from `bot/config/config.py` (class `Config`). -/

namespace Config

def ORDERBOOK_IMBALANCE_THRESHOLD : ℚ := 15/100

def IMBALANCE_EXIT_REVERSED : ℚ := 4/10

def MIN_HOLD_TIME_SECONDS : ℚ := 30

def IMBALANCE_REVERSAL_PERSISTENCE_SAMPLES : ℕ := 75

def SIGNAL_ENTRY_PERSISTENCE_SAMPLES : ℕ := 50

def USE_DYNAMIC_LARGE_TRADES : Bool := true

def LARGE_TRADE_PERCENTILE : ℕ := 99

def MIN_LARGE_TRADE_SIZE : ℚ := 10000

def LARGE_TRADE_SIZE : ℚ := 50000

/-- `Config.MIN_TP_DISTANCE_PCT = 0.50`.  Declared in the config but never
passed to `DynamicTakeProfitFinder` (see `signal_generator.py` line 40). -/
def MIN_TP_DISTANCE_PCT : ℚ := 50/100

def MIN_RR_threshold : ℚ := 8/10

end Config

/-! Embedding of `bot/modules/dynamic_stop_loss_finder.py`
(`DynamicStopLossFinder`).  The constructor defaults
`min_stop_distance_pct = 0.15`, `max_stop_distance_pct = 1.5` are the values
actually used, since `SignalGenerator.__init__` calls
`DynamicStopLossFinder()` with no arguments. -/

def min_stop_distance_pct : ℚ := 15/100

def max_stop_distance_pct : ℚ := 3/2

/-- Result dictionary of the stop finder.  The human-readable `reason` string
is not modelled; `anchor_level` stands for the `support_level` /
`resistance_level` entry. -/
structure StopResult where
  stop_loss_price : Option ℚ
  stop_distance_pct : Option ℚ
  stop_distance_usd : Option ℚ
  is_valid : Bool
  anchor_level : Option ℚ
  deriving Repr, DecidableEq

/-- `DynamicStopLossFinder.find_stop_for_long`.  `strongest_support = none`
models a missing `strongest_support` key; the Python guard
`if not strongest_support` also treats the value `0.0` as missing. -/
def find_stop_for_long (entry_price : ℚ) (strongest_support : Option ℚ)
    (atr : ℚ) : StopResult :=
  match strongest_support with
  | none => ⟨none, none, none, false, none⟩
  | some s =>
    if s = 0 then ⟨none, none, none, false, none⟩
    else
      let stop_loss_price := s - atr * (1/2)
      let stop_distance_usd := entry_price - stop_loss_price
      let stop_distance_pct := stop_distance_usd / entry_price * 100
      if 0 < stop_distance_pct ∧ stop_distance_pct < min_stop_distance_pct then
        ⟨none, none, none, false, some s⟩
      else
        ⟨some (round8 stop_loss_price), some (round4 stop_distance_pct),
          some (round8 stop_distance_usd),
          decide (stop_distance_pct ≤ max_stop_distance_pct), some s⟩

/-- `DynamicStopLossFinder.find_stop_for_short`. -/
def find_stop_for_short (entry_price : ℚ) (strongest_resistance : Option ℚ)
    (atr : ℚ) : StopResult :=
  match strongest_resistance with
  | none => ⟨none, none, none, false, none⟩
  | some r =>
    if r = 0 then ⟨none, none, none, false, none⟩
    else
      let stop_loss_price := r + atr * (1/2)
      let stop_distance_usd := stop_loss_price - entry_price
      let stop_distance_pct := stop_distance_usd / entry_price * 100
      if 0 < stop_distance_pct ∧ stop_distance_pct < min_stop_distance_pct then
        ⟨none, none, none, false, some r⟩
      else
        ⟨some (round8 stop_loss_price), some (round4 stop_distance_pct),
          some (round8 stop_distance_usd),
          decide (stop_distance_pct ≤ max_stop_distance_pct), some r⟩

/-! Embedding of `bot/modules/fast_signal_tracker.py` (`FastSignalTracker`).
The tracker holds three dictionaries keyed by signal id; the embedding keeps
the slice of that state belonging to one signal, with `none` for an absent
key.  `check_signal_hybrid` wraps its body in a `try/except` that swallows
any exception and returns `None`; the only reachable exception is the
`None + float` addition when a cached `tp1_pnl` is `None`, modelled below by
returning no decision while keeping the state mutations already applied. -/

inductive Direction
  | LONG
  | SHORT
  deriving Repr, DecidableEq

/-- Values of the `partial_close_status` column and of the `status` field of
the tracker's per-signal close-state dictionary. -/
inductive PCStatus
  | NONE
  | TP1_CLOSED
  | FULLY_CLOSED
  deriving Repr, DecidableEq

/-- One value of the tracker's per-signal close-state dictionary. -/
structure PCState where
  status : PCStatus
  breakeven_moved : Bool
  current_sl : ℚ
  tp1_pnl : Option ℚ
  deriving Repr, DecidableEq

/-- The tracker state relevant to one signal: its close-state entry and its
`reversal_counters` entry, each `none` when the key is absent. -/
structure TrackerState where
  pc : Option PCState
  reversal_counter : Option ℕ
  deriving Repr, DecidableEq

/-- Static fields of a cached open signal used by `check_signal_hybrid`. -/
structure SignalData where
  direction : Direction
  entry_price : ℚ
  stop_loss : ℚ
  take_profit_1 : ℚ
  take_profit_2 : ℚ
  deriving Repr, DecidableEq

/-- What one 100 ms tick sees for the signal's symbol: the value of the
`imbalance:<sym>` cache entry (`none` when the key is absent), the `mid`
field of the `price:<sym>` entry (`none` when that key is absent; a missing
`mid` field inside a present entry defaults to `0`), and the hold time in
seconds. -/
structure TickData where
  imbalance_data : Option ℚ
  price_data : Option ℚ
  hold_time : ℚ
  deriving Repr, DecidableEq

/-- Exit decision returned by `check_signal_hybrid`; the constructors match
the `exit_reason` strings TAKE_PROFIT_2, TAKE_PROFIT_1_PARTIAL,
STOP_LOSS_BREAKEVEN, STOP_LOSS and IMBALANCE_REVERSED. -/
inductive ExitDecision
  | takeProfit2 (exit_price total_pnl tp2_pnl : ℚ)
  | takeProfit1PartialClose (exit_price tp1_pnl new_sl : ℚ)
  | stopLossBreakeven (exit_price total_pnl : ℚ)
  | stopLoss (exit_price total_pnl : ℚ)
  | imbalanceReversed (exit_price : ℚ)
  deriving Repr, DecidableEq

/-- `FastSignalTracker.check_signal_hybrid` (lines 85-352), as a pure
transition on the signal's tracker state returning the optional exit
decision. -/
def check_signal_hybrid (sig : SignalData) (st : TrackerState) (tick : TickData) :
    TrackerState × Option ExitDecision :=
  match tick.imbalance_data with
  | none => (st, none)
  | some current_imbalance =>
    match tick.price_data with
    | none => (st, none)
    | some current_price =>
      if current_price = 0 then (st, none)
      else
        let entry_price := sig.entry_price
        let pc_status := match st.pc with
          | none => PCStatus.NONE
          | some pcs => pcs.status
        let current_sl := match st.pc with
          | none => sig.stop_loss
          | some pcs => pcs.current_sl
        let st1 : TrackerState := match st.pc with
          | none => { st with pc := some ⟨PCStatus.NONE, false, sig.stop_loss, none⟩ }
          | some _ => st
        if pc_status = PCStatus.TP1_CLOSED ∧
            ((sig.direction = Direction.LONG ∧ current_price ≥ sig.take_profit_2) ∨
              (sig.direction = Direction.SHORT ∧ current_price ≤ sig.take_profit_2)) then
          let tp2_pnl := match sig.direction with
            | Direction.LONG => (sig.take_profit_2 - entry_price) / entry_price * (1/2)
            | Direction.SHORT => (entry_price - sig.take_profit_2) / entry_price * (1/2)
          match st1.pc with
          | some pcs =>
            match pcs.tp1_pnl with
            | some v =>
              (st1, some (ExitDecision.takeProfit2 current_price (v + tp2_pnl) tp2_pnl))
            | none => (st1, none)
          | none => (st1, none)
        else if pc_status = PCStatus.NONE ∧
            ((sig.direction = Direction.LONG ∧ current_price ≥ sig.take_profit_1) ∨
              (sig.direction = Direction.SHORT ∧ current_price ≤ sig.take_profit_1)) then
          let tp1_pnl := match sig.direction with
            | Direction.LONG => (sig.take_profit_1 - entry_price) / entry_price * (1/2)
            | Direction.SHORT => (entry_price - sig.take_profit_1) / entry_price * (1/2)
          let new_sl := entry_price
          ({ st1 with pc := some ⟨PCStatus.TP1_CLOSED, true, new_sl, some tp1_pnl⟩ },
            some (ExitDecision.takeProfit1PartialClose current_price tp1_pnl new_sl))
        else if (sig.direction = Direction.LONG ∧ current_price ≤ current_sl) ∨
            (sig.direction = Direction.SHORT ∧ current_price ≥ current_sl) then
          if pc_status = PCStatus.TP1_CLOSED then
            match st1.pc with
            | some pcs =>
              match pcs.tp1_pnl with
              | some v => (st1, some (ExitDecision.stopLossBreakeven current_price v))
              | none => (st1, none)
            | none => (st1, none)
          else
            let total_pnl := match sig.direction with
              | Direction.LONG => (current_price - entry_price) / entry_price
              | Direction.SHORT => (entry_price - current_price) / entry_price
            (st1, some (ExitDecision.stopLoss current_price total_pnl))
        else
          let c0 := match st1.reversal_counter with
            | none => 0
            | some c => c
          let st2 := { st1 with reversal_counter := some c0 }
          if tick.hold_time ≥ Config.MIN_HOLD_TIME_SECONDS then
            let imbalance_is_reversed :=
              (sig.direction = Direction.LONG ∧
                current_imbalance < -Config.IMBALANCE_EXIT_REVERSED) ∨
              (sig.direction = Direction.SHORT ∧
                current_imbalance > Config.IMBALANCE_EXIT_REVERSED)
            if imbalance_is_reversed then
              let counter := c0 + 1
              if counter ≥ Config.IMBALANCE_REVERSAL_PERSISTENCE_SAMPLES then
                ({ st2 with reversal_counter := some 0 },
                  some (ExitDecision.imbalanceReversed current_price))
              else
                ({ st2 with reversal_counter := some counter }, none)
            else
              ({ st2 with reversal_counter := some 0 }, none)
          else
            (st2, none)

/-- Signal row status column. -/
inductive SigStatus
  | OPEN
  | CLOSED
  deriving Repr, DecidableEq

/-- The columns of a signal row touched by `close_signals_batch`. -/
structure SignalRow where
  status : SigStatus
  pc_status : PCStatus
  breakeven_moved : Bool
  current_stop_loss : Option ℚ
  tp1_hit_price : Option ℚ
  tp1_pnl : Option ℚ
  tp2_hit_price : Option ℚ
  tp2_pnl : Option ℚ
  deriving Repr, DecidableEq

/-- Per-row effect of `FastSignalTracker.close_signals_batch` (lines 377-585)
for one exit decision: a row whose status is no longer OPEN is skipped (the
`status == OPEN` recheck); a TAKE_PROFIT_1_PARTIAL exit records the TP1 fill
and keeps the row OPEN; TAKE_PROFIT_2 / STOP_LOSS_BREAKEVEN fully close it
(the dispatched `tp2_pnl` is `0` for a break-even stop); STOP_LOSS and
IMBALANCE_REVERSED close it.  Timestamps and the appended Trade row are not
modelled. -/
def apply_exit_to_row (row : SignalRow) (d : ExitDecision) : SignalRow :=
  if row.status ≠ SigStatus.OPEN then row
  else
    match d with
    | ExitDecision.takeProfit1PartialClose exit_price tp1_pnl new_sl =>
      { row with
        tp1_hit_price := some exit_price
        tp1_pnl := some tp1_pnl
        pc_status := PCStatus.TP1_CLOSED
        breakeven_moved := true
        current_stop_loss := some new_sl }
    | ExitDecision.takeProfit2 exit_price _total tp2_pnl =>
      { row with
        tp2_hit_price := some exit_price
        tp2_pnl := some tp2_pnl
        pc_status := PCStatus.FULLY_CLOSED
        status := SigStatus.CLOSED }
    | ExitDecision.stopLossBreakeven exit_price _total =>
      { row with
        tp2_hit_price := some exit_price
        tp2_pnl := some 0
        pc_status := PCStatus.FULLY_CLOSED
        status := SigStatus.CLOSED }
    | ExitDecision.stopLoss _ _ => { row with status := SigStatus.CLOSED }
    | ExitDecision.imbalanceReversed _ => { row with status := SigStatus.CLOSED }

/-- The TP1 PnL recorded by the tracker: half of the TP1 move relative to
entry, sign mirrored for SHORT. -/
def tp1_close_pnl (sig : SignalData) : ℚ :=
  match sig.direction with
  | Direction.LONG => (sig.take_profit_1 - sig.entry_price) / sig.entry_price * (1/2)
  | Direction.SHORT => (sig.entry_price - sig.take_profit_1) / sig.entry_price * (1/2)

/-- C10: on a tick where the snapshot cache lacks the imbalance entry or the
price entry, or the cached mid price equals `0`, `check_signal_hybrid`
returns no exit decision and leaves the reversal counter and the
partial-close state of the signal exactly as they were. -/
theorem C10_missing_data_skips_tick (sig : SignalData) (st : TrackerState)
    (tick : TickData)
    (h : tick.imbalance_data = none ∨ tick.price_data = none ∨
      tick.price_data = some 0) :
    check_signal_hybrid sig st tick = (st, none) := by
  rcases h with h | h | h
  · simp [check_signal_hybrid, h]
  · cases him : tick.imbalance_data <;> simp [check_signal_hybrid, him, h]
  · cases him : tick.imbalance_data <;> simp [check_signal_hybrid, him, h]

/-- C10 witness: a tick with no imbalance entry leaves a fresh state
untouched and produces no decision. -/
theorem C10_witness :
    (none : Option ℚ) = none ∧
    check_signal_hybrid ⟨Direction.LONG, 100, 99, 101, 102⟩ ⟨none, none⟩
      ⟨none, some 5, 0⟩ = (⟨none, none⟩, none) :=
  ⟨rfl, C10_missing_data_skips_tick _ _ _ (Or.inl rfl)⟩

/-- C2: on a tick whose cache data is present with nonzero mid at or beyond
TP1, a signal with partial-close status NONE gets a TP1 partial-close
decision: the new stop is the entry price, the recorded PnL is half the TP1
move (sign mirrored for SHORT), the cached state advances to TP1_CLOSED with
the break-even flag set and current stop equal to entry, the reversal
counter is untouched, and applying the decision to an OPEN signal row keeps
the row status OPEN while recording the same fields. -/
theorem C2_tp1_partial_close (sig : SignalData) (st : TrackerState)
    (tick : TickData) (row : SignalRow) (imb mid : ℚ)
    (him : tick.imbalance_data = some imb)
    (hpr : tick.price_data = some mid)
    (hmid : mid ≠ 0)
    (hpc : ∀ p, st.pc = some p → p.status = PCStatus.NONE)
    (hdir : (sig.direction = Direction.LONG ∧ mid ≥ sig.take_profit_1) ∨
      (sig.direction = Direction.SHORT ∧ mid ≤ sig.take_profit_1))
    (hrow : row.status = SigStatus.OPEN) :
    check_signal_hybrid sig st tick =
      (⟨some ⟨PCStatus.TP1_CLOSED, true, sig.entry_price, some (tp1_close_pnl sig)⟩,
          st.reversal_counter⟩,
        some (ExitDecision.takeProfit1PartialClose mid (tp1_close_pnl sig)
          sig.entry_price)) ∧
    apply_exit_to_row row
        (ExitDecision.takeProfit1PartialClose mid (tp1_close_pnl sig)
          sig.entry_price) =
      { row with
        tp1_hit_price := some mid
        tp1_pnl := some (tp1_close_pnl sig)
        pc_status := PCStatus.TP1_CLOSED
        breakeven_moved := true
        current_stop_loss := some sig.entry_price } ∧
    (apply_exit_to_row row
        (ExitDecision.takeProfit1PartialClose mid (tp1_close_pnl sig)
          sig.entry_price)).status = SigStatus.OPEN := by
  have hrow2 : apply_exit_to_row row
      (ExitDecision.takeProfit1PartialClose mid (tp1_close_pnl sig)
        sig.entry_price) =
      { row with
        tp1_hit_price := some mid
        tp1_pnl := some (tp1_close_pnl sig)
        pc_status := PCStatus.TP1_CLOSED
        breakeven_moved := true
        current_stop_loss := some sig.entry_price } := by
    simp [apply_exit_to_row, hrow]
  refine ⟨?_, hrow2, by rw [hrow2]; exact hrow⟩
  rcases hdir with ⟨hd, hcmp⟩ | ⟨hd, hcmp⟩ <;>
    cases hp : st.pc with
  | none =>
    simp [check_signal_hybrid, him, hpr, hmid, hp, hd, hcmp, tp1_close_pnl]
  | some p =>
    have hstat := hpc p hp
    simp [check_signal_hybrid, him, hpr, hmid, hp, hd, hcmp, hstat, tp1_close_pnl]

/-- C2 witness: a LONG signal with entry `100` and TP1 `101`, mid `101`:
the recorded PnL is `0.5%` and the tracker state advances as stated. -/
theorem C2_witness :
    tp1_close_pnl ⟨Direction.LONG, 100, 99, 101, 102⟩ = 1/200 ∧
    check_signal_hybrid ⟨Direction.LONG, 100, 99, 101, 102⟩ ⟨none, none⟩
        ⟨some (1/10), some 101, 5⟩ =
      (⟨some ⟨PCStatus.TP1_CLOSED, true, 100,
          some (tp1_close_pnl ⟨Direction.LONG, 100, 99, 101, 102⟩)⟩, none⟩,
        some (ExitDecision.takeProfit1PartialClose 101
          (tp1_close_pnl ⟨Direction.LONG, 100, 99, 101, 102⟩) 100)) := by
  constructor
  · norm_num [tp1_close_pnl]
  · exact (C2_tp1_partial_close ⟨Direction.LONG, 100, 99, 101, 102⟩ ⟨none, none⟩
      ⟨some (1/10), some 101, 5⟩ ⟨SigStatus.OPEN, PCStatus.NONE, false, none, none, none, none, none⟩
      (1/10) 101 rfl rfl (by norm_num)
      (by intro p hp; cases hp)
      (Or.inl ⟨rfl, by norm_num⟩) rfl).1

/-- The condition under which the reversal layer counts a tick: the minimum
hold time has passed and the imbalance read from the tick is beyond the exit
threshold against the signal's direction. -/
def tickReversed (sig : SignalData) (t : TickData) : Bool :=
  match t.imbalance_data with
  | some imb =>
    decide (t.hold_time ≥ Config.MIN_HOLD_TIME_SECONDS) &&
      ((decide (sig.direction = Direction.LONG) &&
          decide (imb < -Config.IMBALANCE_EXIT_REVERSED)) ||
        (decide (sig.direction = Direction.SHORT) &&
          decide (imb > Config.IMBALANCE_EXIT_REVERSED)))
  | none => false

/-- Count of consecutive reversed samples ending at the end of the list,
folded from `seed` — the claim's notion of a reversal streak. -/
def revStreak (sig : SignalData) (seed : ℕ) (ts : List TickData) : ℕ :=
  ts.foldl (fun c t => if tickReversed sig t then c + 1 else 0) seed

/-- The tracker run over successive ticks of one signal, collecting each
tick's decision. -/
def runTracker (sig : SignalData) :
    TrackerState → List TickData → List (Option ExitDecision)
  | _, [] => []
  | st, t :: ts =>
    (check_signal_hybrid sig st t).2 ::
      runTracker sig (check_signal_hybrid sig st t).1 ts

/-- A tick on which the reversal layer actually evaluates: snapshot data is
present, the mid is nonzero, and the mid lies strictly between the initial
stop and TP1, so that no price-based exit fires. -/
def evaluatedTick (sig : SignalData) (t : TickData) : Prop :=
  (∃ imb, t.imbalance_data = some imb) ∧
  ∃ mid, t.price_data = some mid ∧ mid ≠ 0 ∧
    (match sig.direction with
     | Direction.LONG => sig.stop_loss < mid ∧ mid < sig.take_profit_1
     | Direction.SHORT => sig.take_profit_1 < mid ∧ mid < sig.stop_loss)

lemma tickReversed_hold (sig : SignalData) (t : TickData)
    (h : tickReversed sig t = true) :
    t.hold_time ≥ Config.MIN_HOLD_TIME_SECONDS := by
  unfold tickReversed at h
  cases him : t.imbalance_data with
  | none => rw [him] at h; cases h
  | some imb =>
    rw [him] at h
    simp only [Bool.and_eq_true, decide_eq_true_eq] at h
    exact h.1

lemma check_eval_step (sig : SignalData) (st : TrackerState) (t : TickData)
    (c0 : ℕ)
    (hpc : st.pc = none ∨ st.pc = some ⟨PCStatus.NONE, false, sig.stop_loss, none⟩)
    (hrc : (match st.reversal_counter with | none => 0 | some c => c) = c0)
    (heval : evaluatedTick sig t) :
    check_signal_hybrid sig st t =
      (⟨some ⟨PCStatus.NONE, false, sig.stop_loss, none⟩,
        some (if tickReversed sig t then
            (if c0 + 1 ≥ Config.IMBALANCE_REVERSAL_PERSISTENCE_SAMPLES then 0
              else c0 + 1)
          else if t.hold_time ≥ Config.MIN_HOLD_TIME_SECONDS then 0 else c0)⟩,
        if tickReversed sig t ∧
            c0 + 1 ≥ Config.IMBALANCE_REVERSAL_PERSISTENCE_SAMPLES then
          some (ExitDecision.imbalanceReversed (t.price_data.getD 0))
        else none) := by
  obtain ⟨⟨imb, him⟩, mid, hpr, hmid, hbound⟩ := heval
  have hgd : t.price_data.getD 0 = mid := by rw [hpr]; rfl
  cases hd : sig.direction with
  | LONG =>
    rw [hd] at hbound
    obtain ⟨hsl, htp⟩ := hbound
    rcases hpc with hp | hp <;>
      by_cases h30 : t.hold_time ≥ Config.MIN_HOLD_TIME_SECONDS <;>
        by_cases hrev : imb < -Config.IMBALANCE_EXIT_REVERSED <;>
          by_cases hcnt : c0 + 1 ≥ Config.IMBALANCE_REVERSAL_PERSISTENCE_SAMPLES <;>
            simp [check_signal_hybrid, him, hpr, hmid, hp, hd, tickReversed, hrc,
              hgd, not_le.mpr htp, not_le.mpr hsl, h30, hrev, hcnt]
  | SHORT =>
    rw [hd] at hbound
    obtain ⟨htp, hsl⟩ := hbound
    rcases hpc with hp | hp <;>
      by_cases h30 : t.hold_time ≥ Config.MIN_HOLD_TIME_SECONDS <;>
        by_cases hrev : imb > Config.IMBALANCE_EXIT_REVERSED <;>
          by_cases hcnt : c0 + 1 ≥ Config.IMBALANCE_REVERSAL_PERSISTENCE_SAMPLES <;>
            simp [check_signal_hybrid, him, hpr, hmid, hp, hd, tickReversed, hrc,
              hgd, not_le.mpr htp, not_le.mpr hsl, h30, hrev, hcnt]

lemma runTracker_aux (sig : SignalData) :
    ∀ (ticks : List TickData) (st : TrackerState) (s0 : ℕ),
      (st.pc = none ∨
        st.pc = some ⟨PCStatus.NONE, false, sig.stop_loss, none⟩) →
      (match st.reversal_counter with | none => 0 | some c => c) =
        s0 % Config.IMBALANCE_REVERSAL_PERSISTENCE_SAMPLES →
      (s0 % Config.IMBALANCE_REVERSAL_PERSISTENCE_SAMPLES = 0 ∨
        ∀ t ∈ ticks, t.hold_time ≥ Config.MIN_HOLD_TIME_SECONDS) →
      (∀ t ∈ ticks, evaluatedTick sig t) →
      List.Pairwise (fun a b => a.hold_time ≤ b.hold_time) ticks →
      ∀ i t, ticks.get? i = some t →
        (runTracker sig st ticks).get? i = some
          (if revStreak sig s0 (ticks.take (i+1)) %
                Config.IMBALANCE_REVERSAL_PERSISTENCE_SAMPLES = 0 ∧
              0 < revStreak sig s0 (ticks.take (i+1)) then
            some (ExitDecision.imbalanceReversed (t.price_data.getD 0))
          else none) := by
  intro ticks
  induction ticks with
  | nil => intro st s0 _ _ _ _ _ i t hit; cases hit
  | cons t0 ts ih =>
    intro st s0 hpc hrc hseed heval hmono i t hit
    have hev0 : evaluatedTick sig t0 := heval t0 (List.mem_cons_self t0 ts)
    have hstep := check_eval_step sig st t0
      (s0 % Config.IMBALANCE_REVERSAL_PERSISTENCE_SAMPLES) hpc hrc hev0
    have hmono2 := List.pairwise_cons.mp hmono
    have hPS : Config.IMBALANCE_REVERSAL_PERSISTENCE_SAMPLES = 75 := rfl
    cases i with
    | zero =>
      have ht0 : t = t0 := by cases hit; rfl
      subst ht0
      have hget : (runTracker sig st (t :: ts)).get? 0 =
          some (check_signal_hybrid sig st t).2 := rfl
      rw [hget, hstep]
      have hfold : revStreak sig s0 ((t :: ts).take 1) =
          if tickReversed sig t then s0 + 1 else 0 := by
        simp [revStreak]
      rw [hfold]
      by_cases hb : tickReversed sig t = true
      · have hiff : (tickReversed sig t = true ∧
            s0 % Config.IMBALANCE_REVERSAL_PERSISTENCE_SAMPLES + 1 ≥
              Config.IMBALANCE_REVERSAL_PERSISTENCE_SAMPLES) ↔
            ((if tickReversed sig t then s0 + 1 else 0) %
                Config.IMBALANCE_REVERSAL_PERSISTENCE_SAMPLES = 0 ∧
              0 < (if tickReversed sig t then s0 + 1 else 0)) := by
          rw [hPS]
          simp only [hb, if_true, true_and]
          omega
        exact congrArg some (if_congr hiff rfl rfl)
      · simp [hb, hPS]
    | succ n =>
      have hit2 : ts.get? n = some t := hit
      have hget : (runTracker sig st (t0 :: ts)).get? (n+1) =
          (runTracker sig (check_signal_hybrid sig st t0).1 ts).get? n := rfl
      have hstate : (check_signal_hybrid sig st t0).1 =
          ⟨some ⟨PCStatus.NONE, false, sig.stop_loss, none⟩,
            some (if tickReversed sig t0 then
                (if s0 % Config.IMBALANCE_REVERSAL_PERSISTENCE_SAMPLES + 1 ≥
                    Config.IMBALANCE_REVERSAL_PERSISTENCE_SAMPLES then 0
                  else s0 % Config.IMBALANCE_REVERSAL_PERSISTENCE_SAMPLES + 1)
              else if t0.hold_time ≥ Config.MIN_HOLD_TIME_SECONDS then 0
                else s0 % Config.IMBALANCE_REVERSAL_PERSISTENCE_SAMPLES)⟩ := by
        rw [hstep]
      have hstreak : revStreak sig s0 ((t0 :: ts).take (n+1+1)) =
          revStreak sig (if tickReversed sig t0 then s0 + 1 else 0)
            (ts.take (n+1)) := by
        rw [List.take_succ_cons]
        simp [revStreak]
      rw [hget, hstate, hstreak]
      refine ih _ (if tickReversed sig t0 then s0 + 1 else 0) (Or.inr rfl) ?_ ?_
        (fun t2 ht2 => heval t2 (List.mem_cons_of_mem t0 ht2))
        hmono2.2 n t hit2
      · by_cases hb : tickReversed sig t0 = true
        · simp only [hb, if_true]
          show (if s0 % Config.IMBALANCE_REVERSAL_PERSISTENCE_SAMPLES + 1 ≥
              Config.IMBALANCE_REVERSAL_PERSISTENCE_SAMPLES then 0
            else s0 % Config.IMBALANCE_REVERSAL_PERSISTENCE_SAMPLES + 1) =
            (s0 + 1) % Config.IMBALANCE_REVERSAL_PERSISTENCE_SAMPLES
          rw [hPS]
          split_ifs with hf <;> omega
        · simp only [hb, if_false, Bool.false_eq_true]
          by_cases h30 : t0.hold_time ≥ Config.MIN_HOLD_TIME_SECONDS
          · simp [h30]
          · rcases hseed with h0 | hall
            · simp [h30, h0]
            · exact absurd (hall t0 (List.mem_cons_self t0 ts)) h30
      · by_cases hb : tickReversed sig t0 = true
        · refine Or.inr fun t2 ht2 => ?_
          have h30 := tickReversed_hold sig t0 hb
          exact le_trans h30 (hmono2.1 t2 ht2)
        · simp [hb]

/-- C3: the fast tracker never emits a reversal closure while the hold time
is below 30 s; and over any run of evaluated ticks with nondecreasing hold
times started from a fresh state, tick `i` gets a reversal closure exactly
when the count of consecutive reversed samples (opposite-signed imbalance
beyond `0.4` with the 30 s gate passed) ending at `i` is a positive multiple
of 75 — i.e. the 75th consecutive reversed evaluated sample fires the
closure and the counter restarts; a non-reversed evaluated sample resets the
streak to zero. -/
theorem C3_reversal_persistence (sig : SignalData) :
    (∀ (st : TrackerState) (t : TickData) (p : ℚ),
      t.hold_time < Config.MIN_HOLD_TIME_SECONDS →
      (check_signal_hybrid sig st t).2 ≠ some (ExitDecision.imbalanceReversed p)) ∧
    (∀ ticks : List TickData,
      (∀ t ∈ ticks, evaluatedTick sig t) →
      List.Pairwise (fun a b => a.hold_time ≤ b.hold_time) ticks →
      ∀ i t, ticks.get? i = some t →
        (runTracker sig ⟨none, none⟩ ticks).get? i = some
          (if revStreak sig 0 (ticks.take (i+1)) %
                Config.IMBALANCE_REVERSAL_PERSISTENCE_SAMPLES = 0 ∧
              0 < revStreak sig 0 (ticks.take (i+1)) then
            some (ExitDecision.imbalanceReversed (t.price_data.getD 0))
          else none)) := by
  constructor
  · intro st t p hlt
    have hnot : ¬ (t.hold_time ≥ Config.MIN_HOLD_TIME_SECONDS) := not_le.mpr hlt
    obtain ⟨pc, rc⟩ := st
    cases him : t.imbalance_data with
    | none => simp [check_signal_hybrid, him]
    | some imb =>
      cases hpr : t.price_data with
      | none => simp [check_signal_hybrid, him, hpr]
      | some mid =>
        by_cases hmid : mid = 0
        · simp [check_signal_hybrid, him, hpr, hmid]
        · cases pc with
          | none =>
            simp only [check_signal_hybrid, him, hpr]
            rw [if_neg hmid]
            split_ifs <;> simp_all
          | some p2 =>
            obtain ⟨ps, pb, psl, ptp⟩ := p2
            cases ptp with
            | none =>
              simp only [check_signal_hybrid, him, hpr]
              rw [if_neg hmid]
              split_ifs <;> simp_all
            | some v =>
              simp only [check_signal_hybrid, him, hpr]
              rw [if_neg hmid]
              split_ifs <;> simp_all
  · intro ticks heval hmono i t hit
    exact runTracker_aux sig ticks ⟨none, none⟩ 0 (Or.inl rfl) rfl
      (Or.inl rfl) heval hmono i t hit

/-- C3 witness: a LONG signal on two evaluated ticks with hold time 31 s and
imbalance −0.5 builds a streak of 1 then 2, firing no closure. -/
theorem C3_witness :
    (runTracker ⟨Direction.LONG, 100, 99, 101, 102⟩ ⟨none, none⟩
        [⟨some (-1/2), some 100, 31⟩, ⟨some (-1/2), some 100, 31⟩]).get? 1 =
      some none := by
  have h := (C3_reversal_persistence ⟨Direction.LONG, 100, 99, 101, 102⟩).2
    [⟨some (-1/2), some 100, 31⟩, ⟨some (-1/2), some 100, 31⟩]
    (by
      intro t ht
      have : t = ⟨some (-1/2), some 100, 31⟩ := by simpa using ht
      rw [this]
      exact ⟨⟨-1/2, rfl⟩, 100, rfl, by norm_num, by norm_num⟩)
    (by
      constructor
      · intro b hb
        have : b = ⟨some (-1/2), some 100, 31⟩ := by simpa using hb
        rw [this]
      · simp)
    1 ⟨some (-1/2), some 100, 31⟩ rfl
  rw [h]
  norm_num [revStreak, tickReversed, Config.IMBALANCE_EXIT_REVERSED,
    Config.MIN_HOLD_TIME_SECONDS, Config.IMBALANCE_REVERSAL_PERSISTENCE_SAMPLES]

/-- A sample instrument symbol used by concrete witnesses. -/
def instBTC : String := "BTCUSDT"

/-! Embedding of `bot/modules/entry_confirmation_tracker.py`
(`EntryConfirmationTracker.check_and_update`).  The per-symbol counter
dictionary initialises a missing key to `0` before every use, so it is
modelled as a total map defaulting to `0`. -/

def check_and_update (counters : String → ℕ) (symbol : String)
    (all_conditions_met : Bool) : (String → ℕ) × Bool :=
  if all_conditions_met then
    let counter := counters symbol + 1
    if counter ≥ Config.SIGNAL_ENTRY_PERSISTENCE_SAMPLES then
      (Function.update counters symbol 0, true)
    else
      (Function.update counters symbol counter, false)
  else
    (Function.update counters symbol 0, false)

/-- C6: on an evaluation tick where all four preconditions hold and the
counter stays below the 50-sample threshold, the instrument's counter
increases by exactly 1 and nothing is emitted; on a tick where any
precondition fails the counter becomes 0; a signal proposal is emitted
exactly when the preconditions hold and the incremented counter reaches 50,
and then the counter resets to 0; counters below 50 stay below 50, and other
instruments' counters are untouched. -/
theorem C6_entry_persistence (counters : String → ℕ) (symbol : String)
    (met : Bool) :
    (met = true →
      counters symbol + 1 < Config.SIGNAL_ENTRY_PERSISTENCE_SAMPLES →
      (check_and_update counters symbol met).1 symbol = counters symbol + 1 ∧
        (check_and_update counters symbol met).2 = false) ∧
    (met = false →
      (check_and_update counters symbol met).1 symbol = 0 ∧
        (check_and_update counters symbol met).2 = false) ∧
    ((check_and_update counters symbol met).2 = true ↔
      met = true ∧
        Config.SIGNAL_ENTRY_PERSISTENCE_SAMPLES ≤ counters symbol + 1) ∧
    ((check_and_update counters symbol met).2 = true →
      (check_and_update counters symbol met).1 symbol = 0) ∧
    (counters symbol < Config.SIGNAL_ENTRY_PERSISTENCE_SAMPLES →
      (check_and_update counters symbol met).1 symbol <
        Config.SIGNAL_ENTRY_PERSISTENCE_SAMPLES) ∧
    (∀ s, s ≠ symbol →
      (check_and_update counters symbol met).1 s = counters s) := by
  have hpos : 0 < Config.SIGNAL_ENTRY_PERSISTENCE_SAMPLES := by
    norm_num [Config.SIGNAL_ENTRY_PERSISTENCE_SAMPLES]
  unfold check_and_update
  cases met with
  | false =>
    refine ⟨fun hc => absurd hc (by simp), fun _ => ?_, ?_, ?_, fun _ => ?_,
      fun s hsne => ?_⟩
    · constructor <;> simp [Function.update]
    · simp
    · simp
    · simp [Function.update, hpos]
    · simp [Function.update, hsne]
  | true =>
    rcases le_or_lt Config.SIGNAL_ENTRY_PERSISTENCE_SAMPLES
      (counters symbol + 1) with h | h
    · refine ⟨fun _ hlt => absurd hlt (not_lt.mpr h),
        fun hc => absurd hc (by simp), ?_, fun _ => ?_, fun _ => ?_,
        fun s hsne => ?_⟩
      · simp [if_pos h, h]
      · simp [if_pos h, Function.update]
      · simp [if_pos h, Function.update, hpos]
      · simp [if_pos h, Function.update, hsne]
    · have hn : ¬ (Config.SIGNAL_ENTRY_PERSISTENCE_SAMPLES ≤
          counters symbol + 1) := not_le.mpr h
      refine ⟨fun _ _ => ?_, fun hc => absurd hc (by simp), ?_, ?_,
        fun _ => ?_, fun s hsne => ?_⟩
      · constructor <;> simp [if_neg hn, Function.update]
      · simp [if_neg hn, hn]
      · simp [if_neg hn]
      · simpa [if_neg hn, Function.update] using h
      · simp [if_neg hn, Function.update, hsne]

/-- C6 witness: from a zero counter with preconditions holding, the counter
advances to 1 with no emission. -/
theorem C6_witness :
    ((0 : ℕ) + 1 < Config.SIGNAL_ENTRY_PERSISTENCE_SAMPLES) ∧
    (check_and_update (fun _ => 0) instBTC true).1 instBTC = 0 + 1 ∧
    (check_and_update (fun _ => 0) instBTC true).2 = false := by
  refine ⟨by norm_num [Config.SIGNAL_ENTRY_PERSISTENCE_SAMPLES], ?_, ?_⟩
  · exact ((C6_entry_persistence (fun _ => 0) instBTC true).1 rfl
      (by norm_num [Config.SIGNAL_ENTRY_PERSISTENCE_SAMPLES])).1
  · exact ((C6_entry_persistence (fun _ => 0) instBTC true).1 rfl
      (by norm_num [Config.SIGNAL_ENTRY_PERSISTENCE_SAMPLES])).2

/-! Embedding of `bot/modules/trade_flow_analyzer.py` (`TradeFlowAnalyzer`),
restricted to one symbol: the per-symbol `trades` and `trade_sizes` deques
(`none` when the symbol has no entry yet), trade timestamps in epoch
milliseconds, and the 5-minute window. -/

/-- One aggregated trade message: event time `T` (ms), price `p`, quantity
`q`, and the buyer-is-maker flag `m`. -/
structure TradeMsg where
  T : ℤ
  p : ℚ
  q : ℚ
  m : Bool
  deriving Repr, DecidableEq

/-- `window_minutes * 60 * 1000` for the default 5-minute window. -/
def window_size : ℤ := 5 * 60 * 1000

/-- The per-symbol slice of the analyzer state. -/
structure FlowState where
  trades : Option (List TradeMsg)
  trade_sizes : Option (List ℚ)
  deriving Repr, DecidableEq

/-- `TradeFlowAnalyzer.add_trade` for one symbol: create the two deques on
first sight, prune both in lockstep by the trade's event time, then append
the trade and its notional size `q·p`. -/
def add_trade (st : FlowState) (trade : TradeMsg) : FlowState :=
  let trades0 := st.trades.getD []
  let sizes0 := st.trade_sizes.getD []
  let trade_size := trade.q * trade.p
  let current_time := trade.T
  let kept := (trades0.zip sizes0).filter
    (fun ts => decide (current_time - ts.1.T ≤ window_size))
  ⟨some (kept.map Prod.fst ++ [trade]), some (kept.map Prod.snd ++ [trade_size])⟩

/-- CPython `statistics.quantiles(sizes, n=100)[98]` with the default
exclusive method: sort, take the cut point `i = 99` with `m = len+1`,
`j = clamp(99·m // 100, 1, len−1)`, `delta = 99·m − j·100`, interpolating
`(data[j−1]·(100−delta) + data[j]·delta)/100`. -/
def percentile99_exclusive (sizes : List ℚ) : ℚ :=
  let data := sizes.insertionSort (· ≤ ·)
  let ld := data.length
  let m := ld + 1
  let j0 := 99 * m / 100
  let j := if j0 < 1 then 1 else if j0 > ld - 1 then ld - 1 else j0
  let delta : ℤ := (99 * m : ℤ) - (j * 100 : ℤ)
  (data.getD (j-1) 0 * ((100 : ℚ) - (delta : ℚ)) +
    data.getD j 0 * (delta : ℚ)) / 100

/-- `TradeFlowAnalyzer.calculate_dynamic_threshold`: below 20 in-window
sizes, the configured floor; otherwise the 99th percentile of the sizes,
floored by the configured minimum. -/
def calculate_dynamic_threshold (trade_sizes : Option (List ℚ)) : ℚ :=
  match trade_sizes with
  | none => Config.MIN_LARGE_TRADE_SIZE
  | some sizes =>
    if sizes.length < 20 then Config.MIN_LARGE_TRADE_SIZE
    else max (percentile99_exclusive sizes) Config.MIN_LARGE_TRADE_SIZE

/-- The fields of the `analyze_trade_flow` result dictionary that the claims
are about; the volume, large-trade-count and vwap fields are omitted. -/
structure FlowResult where
  dynamic_threshold : ℚ
  trade_count : ℕ
  deriving Repr, DecidableEq

/-- `TradeFlowAnalyzer.analyze_trade_flow` for one symbol: an absent or
empty deque short-circuits to the zero result (`dynamic_threshold = 0`);
otherwise both deques are pruned in lockstep and, with
`USE_DYNAMIC_LARGE_TRADES` on, the dynamic threshold of the pruned sizes is
reported. -/
def analyze_trade_flow (st : FlowState) (current_time : ℤ) :
    FlowState × FlowResult :=
  match st.trades with
  | none => (st, ⟨0, 0⟩)
  | some trades0 =>
    if trades0.isEmpty then (st, ⟨0, 0⟩)
    else
      let sizes0 := st.trade_sizes.getD []
      let kept := (trades0.zip sizes0).filter
        (fun ts => decide (current_time - ts.1.T ≤ window_size))
      let trades1 := kept.map Prod.fst
      let sizes1 := kept.map Prod.snd
      let threshold :=
        if Config.USE_DYNAMIC_LARGE_TRADES then
          calculate_dynamic_threshold (some sizes1)
        else Config.LARGE_TRADE_SIZE
      (⟨some trades1, some sizes1⟩,
        ⟨if Config.USE_DYNAMIC_LARGE_TRADES then threshold else 0,
          trades1.length⟩)

/-- `TradeFlowAnalyzer.clear_old_trades` for one symbol: prunes the `trades`
deque by event time but leaves `trade_sizes` untouched. -/
def clear_old_trades (st : FlowState) (current_time : ℤ) : FlowState :=
  match st.trades with
  | none => st
  | some trades0 =>
    ⟨some (trades0.filter (fun t => decide (current_time - t.T ≤ window_size))),
      st.trade_sizes⟩

/-- C7 counterexample: with an empty (but existing) window,
`analyze_trade_flow` reports a dynamic threshold of `0`, which is below the
configured floor — refuting "the reported threshold is always ≥ the
configured floor" and "equals the floor when it holds 19 or fewer". -/
theorem C7_counterexample :
    (analyze_trade_flow ⟨some [], some []⟩ 0).2.dynamic_threshold = 0 ∧
    ¬ Config.MIN_LARGE_TRADE_SIZE ≤
      (analyze_trade_flow ⟨some [], some []⟩ 0).2.dynamic_threshold := by
  constructor
  · rfl
  · show ¬ Config.MIN_LARGE_TRADE_SIZE ≤ (0 : ℚ)
    norm_num [Config.MIN_LARGE_TRADE_SIZE]

/-- C7 (amended): when the symbol's deque exists and is nonempty, the
reported threshold equals the configured floor if fewer than 20 trades
survive pruning and `max(99th percentile of in-window sizes, floor)`
otherwise — hence it is then ≥ the floor; an absent or empty deque instead
reports `0`. -/
theorem C7_amended (st : FlowState) (now : ℤ) (trades0 : List TradeMsg)
    (sizes0 : List ℚ)
    (ht : st.trades = some trades0) (hs : st.trade_sizes = some sizes0)
    (hne : trades0 ≠ []) :
    ((analyze_trade_flow st now).2.dynamic_threshold =
      if ((trades0.zip sizes0).filter
          (fun ts => decide (now - ts.1.T ≤ window_size))).length < 20 then
        Config.MIN_LARGE_TRADE_SIZE
      else
        max (percentile99_exclusive (((trades0.zip sizes0).filter
            (fun ts => decide (now - ts.1.T ≤ window_size))).map Prod.snd))
          Config.MIN_LARGE_TRADE_SIZE) ∧
    Config.MIN_LARGE_TRADE_SIZE ≤
      (analyze_trade_flow st now).2.dynamic_threshold := by
  have hemp : trades0.isEmpty = false := by
    cases trades0 with
    | nil => exact absurd rfl hne
    | cons a l => rfl
  have hmain : (analyze_trade_flow st now).2.dynamic_threshold =
      if ((trades0.zip sizes0).filter
          (fun ts => decide (now - ts.1.T ≤ window_size))).length < 20 then
        Config.MIN_LARGE_TRADE_SIZE
      else
        max (percentile99_exclusive (((trades0.zip sizes0).filter
            (fun ts => decide (now - ts.1.T ≤ window_size))).map Prod.snd))
          Config.MIN_LARGE_TRADE_SIZE := by
    simp only [analyze_trade_flow, ht, hs, hemp, Bool.false_eq_true, if_false,
      Option.getD_some, Config.USE_DYNAMIC_LARGE_TRADES, if_true,
      calculate_dynamic_threshold, List.length_map]
  refine ⟨hmain, ?_⟩
  rw [hmain]
  split_ifs with h
  · exact le_refl _
  · exact le_max_right _ _

/-- C7 witness: a one-trade window reports exactly the configured floor. -/
theorem C7_witness :
    (analyze_trade_flow ⟨some [⟨0, 1, 1, false⟩], some [1]⟩ 0).2.dynamic_threshold =
      Config.MIN_LARGE_TRADE_SIZE := by
  have h := (C7_amended ⟨some [⟨0, 1, 1, false⟩], some [1]⟩ 0
    [⟨0, 1, 1, false⟩] [1] rfl rfl (by simp)).1
  rw [h, if_pos]
  norm_num [window_size]

/-- C8: `clear_old_trades` prunes only the `trades` deque and leaves
`trade_sizes` untouched, so a state built by `add_trade` (where both deques
have length 1) ends with `|trades| = 0` but `|trade_sizes| = 1` once the
trade has aged out — the alignment invariant is broken by the code. -/
theorem C8_clear_old_trades_breaks_alignment :
    (((add_trade ⟨none, none⟩ ⟨0, 1, 1, false⟩).trades.getD []).length =
      ((add_trade ⟨none, none⟩ ⟨0, 1, 1, false⟩).trade_sizes.getD []).length) ∧
    ((clear_old_trades (add_trade ⟨none, none⟩ ⟨0, 1, 1, false⟩)
      300001).trades.getD []).length = 0 ∧
    ((clear_old_trades (add_trade ⟨none, none⟩ ⟨0, 1, 1, false⟩)
      300001).trade_sizes.getD []).length = 1 := by
  refine ⟨?_, ?_, ?_⟩ <;>
    norm_num [clear_old_trades, add_trade, window_size]

/-! Embedding of `bot/modules/orderbook_levels_analyzer.py`, steps 4-6 of
`OrderbookLevelsAnalyzer.analyze` (lines 86-119): classification of the
fused levels into supports and resistances, selection of the strongest
levels, and the POC.  `combined` is the `(level, fused volume)` association
produced by `_combine_levels`; it is a Python dict, so its keys are distinct
and the key set is the plain key list.  Python `sorted` is modelled by
insertion sort (same multiset, sorted; stability is irrelevant on keys). -/

structure LevelsResult where
  support_levels : List ℚ
  resistance_levels : List ℚ
  strongest_support : Option ℚ
  strongest_resistance : Option ℚ
  poc : ℚ
  total_levels_found : ℕ
  deriving Repr, DecidableEq

/-- `analyze` lines 86-119: supports are the levels below the current price
sorted descending (nearest first), resistances those above sorted ascending;
`strongest_support`/`strongest_resistance` are the first entries of those
lists; the POC is the key of the first maximal-volume entry (Python `max`
with a key function keeps the first maximum), defaulting to the current
price when there are no levels. -/
def analyze_levels (combined : List (ℚ × ℚ)) (current_price : ℚ) :
    LevelsResult :=
  let all_levels := combined.map Prod.fst
  let support_levels :=
    (all_levels.filter (fun lvl => decide (lvl < current_price))).insertionSort
      (· ≥ ·)
  let resistance_levels :=
    (all_levels.filter (fun lvl => decide (lvl > current_price))).insertionSort
      (· ≤ ·)
  let poc := match combined with
    | [] => current_price
    | x :: xs => (xs.foldl (fun best y => if y.2 > best.2 then y else best) x).1
  ⟨support_levels.take 5, resistance_levels.take 5, support_levels.head?,
    resistance_levels.head?, poc, all_levels.length⟩

lemma head_insertionSort_max (L : List ℚ) (s : ℚ)
    (h : (L.insertionSort (· ≥ ·)).head? = some s) :
    s ∈ L ∧ ∀ x ∈ L, x ≤ s := by
  cases hL : L.insertionSort (· ≥ ·) with
  | nil => rw [hL] at h; cases h
  | cons a l2 =>
    rw [hL] at h
    have ha : a = s := Option.some.inj h
    subst ha
    have hsort := List.sorted_insertionSort (· ≥ ·) L
    rw [hL] at hsort
    have hmem : ∀ x ∈ L, x ∈ a :: l2 := fun x hx => by
      rw [← hL]; exact (List.mem_insertionSort _).mpr hx
    refine ⟨(List.mem_insertionSort _).mp (by rw [hL]; exact List.mem_cons_self a l2), ?_⟩
    intro x hx
    rcases List.mem_cons.mp (hmem x hx) with h1 | h1
    · exact le_of_eq h1
    · exact List.rel_of_sorted_cons hsort x h1

lemma head_insertionSort_min (L : List ℚ) (s : ℚ)
    (h : (L.insertionSort (· ≤ ·)).head? = some s) :
    s ∈ L ∧ ∀ x ∈ L, s ≤ x := by
  cases hL : L.insertionSort (· ≤ ·) with
  | nil => rw [hL] at h; cases h
  | cons a l2 =>
    rw [hL] at h
    have ha : a = s := Option.some.inj h
    subst ha
    have hsort := List.sorted_insertionSort (· ≤ ·) L
    rw [hL] at hsort
    have hmem : ∀ x ∈ L, x ∈ a :: l2 := fun x hx => by
      rw [← hL]; exact (List.mem_insertionSort _).mpr hx
    refine ⟨(List.mem_insertionSort _).mp (by rw [hL]; exact List.mem_cons_self a l2), ?_⟩
    intro x hx
    rcases List.mem_cons.mp (hmem x hx) with h1 | h1
    · exact ge_of_eq h1
    · exact List.rel_of_sorted_cons hsort x h1

/-- C9 counterexample: with support clusters `99` (volume 10) and `95`
(volume 100) below the price `100`, the analysis labels `99` — the nearest,
not the volume-dominant `95` — as `strongest_support`, and surfaces the
maximum-volume level only globally as the POC; no per-side maximum-volume
cluster is reported. -/
theorem C9_counterexample :
    (analyze_levels [(99, 10), (95, 100)] 100).strongest_support = some 99 ∧
    (analyze_levels [(99, 10), (95, 100)] 100).poc = 95 ∧
    ((95 : ℚ), (100 : ℚ)) ∈ ([(99, 10), (95, 100)] : List (ℚ × ℚ)) ∧
    (95 : ℚ) < 100 ∧ (10 : ℚ) < 100 := by
  refine ⟨?_, ?_, by simp, by norm_num, by norm_num⟩
  · norm_num [analyze_levels, List.insertionSort, List.orderedInsert,
      List.filter]
  · norm_num [analyze_levels]

/-- C9 (amended): `strongest_support` and `strongest_resistance` are the
nearest significant levels below and above the current price; the analysis
does not surface a per-side maximum-volume cluster (only the global POC),
and the SL/TP placer therefore anchors on proximity, not volume
dominance. -/
theorem C9_amended (combined : List (ℚ × ℚ)) (p : ℚ) :
    (∀ s, (analyze_levels combined p).strongest_support = some s →
      s < p ∧ s ∈ combined.map Prod.fst ∧
        ∀ lvl ∈ combined.map Prod.fst, lvl < p → lvl ≤ s) ∧
    (∀ r, (analyze_levels combined p).strongest_resistance = some r →
      p < r ∧ r ∈ combined.map Prod.fst ∧
        ∀ lvl ∈ combined.map Prod.fst, p < lvl → r ≤ lvl) := by
  constructor
  · intro s hs
    simp only [analyze_levels] at hs
    obtain ⟨hmem, hmax⟩ := head_insertionSort_max _ _ hs
    obtain ⟨hin, hlt⟩ := List.mem_filter.mp hmem
    refine ⟨of_decide_eq_true hlt, hin, ?_⟩
    intro lvl hlvl hl
    exact hmax lvl (List.mem_filter.mpr ⟨hlvl, decide_eq_true hl⟩)
  · intro r hr
    simp only [analyze_levels] at hr
    obtain ⟨hmem, hmax⟩ := head_insertionSort_min _ _ hr
    obtain ⟨hin, hgt⟩ := List.mem_filter.mp hmem
    refine ⟨of_decide_eq_true hgt, hin, ?_⟩
    intro lvl hlvl hl
    exact hmax lvl (List.mem_filter.mpr ⟨hlvl, decide_eq_true hl⟩)

/-- C9 witness: the amended theorem at the two-cluster input, where the
nearest support below price `100` is `99`. -/
theorem C9_witness :
    (analyze_levels [(99, 10), (95, 100)] 100).strongest_support = some 99 ∧
    ((99 : ℚ) < 100 ∧
      (99 : ℚ) ∈ ([(99, 10), (95, 100)] : List (ℚ × ℚ)).map Prod.fst ∧
      ∀ lvl ∈ ([(99, 10), (95, 100)] : List (ℚ × ℚ)).map Prod.fst,
        lvl < 100 → lvl ≤ 99) := by
  have hss : (analyze_levels [(99, 10), (95, 100)] 100).strongest_support =
      some 99 := by
    norm_num [analyze_levels, List.insertionSort, List.orderedInsert,
      List.filter]
  exact ⟨hss, (C9_amended [(99, 10), (95, 100)] 100).1 99 hss⟩

/-! Embedding of `bot/modules/dynamic_take_profit_finder.py`
(`DynamicTakeProfitFinder`).  `SignalGenerator.__init__` constructs it with
no arguments, so the class defaults `min_tp_distance_pct = 0.20` and
`min_rr_ratio = 0.8` are the live thresholds; the configured
`Config.MIN_TP_DISTANCE_PCT = 0.50` is never passed in. -/

/-- Rounding to 2 decimal digits, the model of Python `round(x, 2)`. -/
def round2 (q : ℚ) : ℚ := (round (q * 100) : ℤ) / 100

/-- Class default `min_tp_distance_pct` of `DynamicTakeProfitFinder`. -/
def min_tp_distance_pct : ℚ := 20/100

/-- Class default `min_rr_ratio` of `DynamicTakeProfitFinder`. -/
def min_rr : ℚ := 8/10

/-- Result dictionary of the take-profit finder; the reasoning strings are
not modelled. -/
structure TPResult where
  tp1_price : Option ℚ
  tp1_distance_pct : Option ℚ
  tp1_rr : Option ℚ
  tp2_price : Option ℚ
  tp2_distance_pct : Option ℚ
  tp2_rr : Option ℚ
  is_valid : Bool
  risk_usd : Option ℚ
  reward1_usd : Option ℚ
  reward2_usd : Option ℚ
  deriving Repr, DecidableEq

/-- `DynamicTakeProfitFinder.find_targets_for_long`.  The final
`reward2_usd` entry reproduces the Python truthiness guard
`round(reward2_usd, 8) if reward2_usd else None`. -/
def find_targets_for_long (entry_price : ℚ) (stop_info : StopResult)
    (resistance_levels : List ℚ) : TPResult :=
  if stop_info.is_valid = false then
    ⟨none, none, none, none, none, none, false, none, none, none⟩
  else
    match resistance_levels with
    | [] => ⟨none, none, none, none, none, none, false, none, none, none⟩
    | resistance_target :: rest =>
      let risk_usd := stop_info.stop_distance_usd.getD 0
      let distance_to_resistance := resistance_target - entry_price
      let tp1_price := entry_price + distance_to_resistance * (95/100)
      let reward1_usd := tp1_price - entry_price
      let tp1_distance_pct := reward1_usd / entry_price * 100
      if 0 < tp1_distance_pct ∧ tp1_distance_pct < min_tp_distance_pct then
        ⟨none, none, none, none, none, none, false, none, none, none⟩
      else
        let tp1_rr := if 0 < risk_usd then reward1_usd / risk_usd else 0
        match rest with
        | resistance_target_2 :: _ =>
          let distance_2 := resistance_target_2 - entry_price
          let tp2_price := entry_price + distance_2 * (95/100)
          let reward2_usd := tp2_price - entry_price
          let tp2_distance_pct := reward2_usd / entry_price * 100
          let tp2_rr := if 0 < risk_usd then reward2_usd / risk_usd else 0
          ⟨some (round8 tp1_price), some (round4 tp1_distance_pct),
            some (round2 tp1_rr), some (round8 tp2_price),
            some (round4 tp2_distance_pct), some (round2 tp2_rr),
            decide (tp1_rr ≥ min_rr), some (round8 risk_usd),
            some (round8 reward1_usd),
            if reward2_usd = 0 then none else some (round8 reward2_usd)⟩
        | [] =>
          let tp2_price := entry_price + reward1_usd * (3/2)
          let reward2_usd := tp2_price - entry_price
          let tp2_distance_pct := reward2_usd / entry_price * 100
          let tp2_rr := if 0 < risk_usd then reward2_usd / risk_usd else 0
          ⟨some (round8 tp1_price), some (round4 tp1_distance_pct),
            some (round2 tp1_rr), some (round8 tp2_price),
            some (round4 tp2_distance_pct), some (round2 tp2_rr),
            decide (tp1_rr ≥ min_rr), some (round8 risk_usd),
            some (round8 reward1_usd),
            if reward2_usd = 0 then none else some (round8 reward2_usd)⟩

/-- `DynamicTakeProfitFinder.find_targets_for_short`. -/
def find_targets_for_short (entry_price : ℚ) (stop_info : StopResult)
    (support_levels : List ℚ) : TPResult :=
  if stop_info.is_valid = false then
    ⟨none, none, none, none, none, none, false, none, none, none⟩
  else
    match support_levels with
    | [] => ⟨none, none, none, none, none, none, false, none, none, none⟩
    | support_target :: rest =>
      let risk_usd := stop_info.stop_distance_usd.getD 0
      let distance_to_support := entry_price - support_target
      let tp1_price := entry_price - distance_to_support * (95/100)
      let reward1_usd := entry_price - tp1_price
      let tp1_distance_pct := reward1_usd / entry_price * 100
      if 0 < tp1_distance_pct ∧ tp1_distance_pct < min_tp_distance_pct then
        ⟨none, none, none, none, none, none, false, none, none, none⟩
      else
        let tp1_rr := if 0 < risk_usd then reward1_usd / risk_usd else 0
        match rest with
        | support_target_2 :: _ =>
          let distance_2 := entry_price - support_target_2
          let tp2_price := entry_price - distance_2 * (95/100)
          let reward2_usd := entry_price - tp2_price
          let tp2_distance_pct := reward2_usd / entry_price * 100
          let tp2_rr := if 0 < risk_usd then reward2_usd / risk_usd else 0
          ⟨some (round8 tp1_price), some (round4 tp1_distance_pct),
            some (round2 tp1_rr), some (round8 tp2_price),
            some (round4 tp2_distance_pct), some (round2 tp2_rr),
            decide (tp1_rr ≥ min_rr), some (round8 risk_usd),
            some (round8 reward1_usd),
            if reward2_usd = 0 then none else some (round8 reward2_usd)⟩
        | [] =>
          let tp2_price := entry_price - reward1_usd * (3/2)
          let reward2_usd := entry_price - tp2_price
          let tp2_distance_pct := reward2_usd / entry_price * 100
          let tp2_rr := if 0 < risk_usd then reward2_usd / risk_usd else 0
          ⟨some (round8 tp1_price), some (round4 tp1_distance_pct),
            some (round2 tp1_rr), some (round8 tp2_price),
            some (round4 tp2_distance_pct), some (round2 tp2_rr),
            decide (tp1_rr ≥ min_rr), some (round8 risk_usd),
            some (round8 reward1_usd),
            if reward2_usd = 0 then none else some (round8 reward2_usd)⟩

/-- C5: the live minimum TP1 distance is the class default `0.20%`, not the
configured `0.50%` the claim (and `Config.MIN_TP_DISTANCE_PCT`) prescribe:
with entry `100`, a valid stop anchored at support `99.7` with `ATR = 0.2`
(risk `0.4`), and nearest resistance `100.4`, TP1 lands `0.38%` from entry —
below the claimed `0.50%` cut — yet the block is accepted (R/R `0.95`). -/
theorem C5_min_tp_distance_not_wired :
    min_tp_distance_pct = 20/100 ∧
    Config.MIN_TP_DISTANCE_PCT = 50/100 ∧
    (find_stop_for_long 100 (some (997/10)) (1/5)).is_valid = true ∧
    (find_targets_for_long 100 (find_stop_for_long 100 (some (997/10)) (1/5))
      [502/5]).is_valid = true ∧
    (find_targets_for_long 100 (find_stop_for_long 100 (some (997/10)) (1/5))
      [502/5]).tp1_distance_pct = some (19/50) ∧
    (19/50 : ℚ) < Config.MIN_TP_DISTANCE_PCT := by
  have hstop : find_stop_for_long 100 (some (997/10)) (1/5) =
      ⟨some (498/5), some (2/5), some (2/5), true, some (997/10)⟩ := by
    norm_num [find_stop_for_long, min_stop_distance_pct, max_stop_distance_pct,
      round8, round4, round_eq]
  refine ⟨rfl, rfl, ?_, ?_, ?_, by norm_num [Config.MIN_TP_DISTANCE_PCT]⟩
  · rw [hstop]
  · rw [hstop]
    norm_num [find_targets_for_long, min_tp_distance_pct, min_rr,
      round8, round4, round2, round_eq]
  · rw [hstop]
    norm_num [find_targets_for_long, min_tp_distance_pct, min_rr,
      round8, round4, round2, round_eq]

/-- C1 counterexample: with strongest support `99.5` and `ATR = 0.2` the code
places the LONG stop at `99.5 − 0.5·ATR = 99.4`, not at the claimed
`99.5 − 1.5·ATR = 99.2`. -/
theorem C1_counterexample :
    (find_stop_for_long 100 (some (199/2)) (1/5)).stop_loss_price = some (497/5) ∧
    (199/2 : ℚ) - (3/2) * (1/5) = 496/5 ∧ (497/5 : ℚ) ≠ 496/5 := by
  refine ⟨?_, by norm_num, by norm_num⟩
  norm_num [find_stop_for_long, min_stop_distance_pct, max_stop_distance_pct,
    round8, round4, round_eq]

/-- C1 (amended): whenever the dynamic stop-loss finder produces a stop price,
the LONG stop equals `strongest_support − 0.5·ATR` and the SHORT stop equals
`strongest_resistance + 0.5·ATR` (rounded to 8 decimals), not `∓/± 1.5·ATR`. -/
theorem C1_amended (entry s atr p : ℚ) :
    ((find_stop_for_long entry (some s) atr).stop_loss_price = some p →
      p = round8 (s - atr * (1/2))) ∧
    ((find_stop_for_short entry (some s) atr).stop_loss_price = some p →
      p = round8 (s + atr * (1/2))) := by
  constructor <;> intro h
  · unfold find_stop_for_long at h
    dsimp only at h
    split_ifs at h with h1 h2 ; simp_all
  · unfold find_stop_for_short at h
    dsimp only at h
    split_ifs at h with h1 h2 ; simp_all

/-- C1 witness: the amended theorem applied at entry `100`, support `99.5`,
`ATR = 0.2`, where the produced stop is `99.4`. -/
theorem C1_amended_witness :
    (find_stop_for_long 100 (some (199/2)) (1/5)).stop_loss_price = some (497/5) ∧
    (497/5 : ℚ) = round8 ((199/2) - (1/5) * (1/2)) := by
  have hs : (find_stop_for_long 100 (some (199/2)) (1/5)).stop_loss_price
      = some (497/5) := by
    norm_num [find_stop_for_long, min_stop_distance_pct, max_stop_distance_pct,
      round8, round4, round_eq]
  exact ⟨hs, (C1_amended 100 (199/2) (1/5) (497/5)).1 hs⟩

/-- C4 counterexample: with strongest support `100.5` above the entry `100`
(and `ATR = 0.2`) the LONG stop lands at `100.4`, on the wrong side of the
entry, yet the placement is marked valid — refuting the claim that a stop on
the wrong side of entry is always rejected. -/
theorem C4_counterexample :
    (find_stop_for_long 100 (some (201/2)) (1/5)).is_valid = true ∧
    (find_stop_for_long 100 (some (201/2)) (1/5)).stop_loss_price = some (502/5) ∧
    (100 : ℚ) < 502/5 := by
  refine ⟨?_, ?_, by norm_num⟩ <;>
    norm_num [find_stop_for_long, min_stop_distance_pct, max_stop_distance_pct,
      round8, round4, round_eq]

/-- C4 (amended): with an anchor level present, the stop placer marks the
placement invalid exactly when the signed stop distance lies strictly between
`0` and the `0.15%` minimum (a minimum-distance rejection the claim denies),
or exceeds `1.5%` of entry.  A stop on the wrong side of entry (distance
`≤ 0`) is marked valid. -/
theorem C4_amended (entry s atr : ℚ) (hs : s ≠ 0) :
    ((find_stop_for_long entry (some s) atr).is_valid = false ↔
      (0 < (entry - (s - atr * (1/2))) / entry * 100 ∧
        (entry - (s - atr * (1/2))) / entry * 100 < min_stop_distance_pct) ∨
      max_stop_distance_pct < (entry - (s - atr * (1/2))) / entry * 100) ∧
    ((find_stop_for_short entry (some s) atr).is_valid = false ↔
      (0 < ((s + atr * (1/2)) - entry) / entry * 100 ∧
        ((s + atr * (1/2)) - entry) / entry * 100 < min_stop_distance_pct) ∨
      max_stop_distance_pct < ((s + atr * (1/2)) - entry) / entry * 100) := by
  constructor
  · unfold find_stop_for_long
    dsimp only
    split_ifs with h1 h2
    · exact absurd h1 hs
    · simpa using Or.inl h2
    · simp only [decide_eq_false_iff_not, not_le]
      constructor
      · intro h; exact Or.inr h
      · rintro (h | h)
        · exact absurd h h2
        · exact h
  · unfold find_stop_for_short
    dsimp only
    split_ifs with h1 h2
    · exact absurd h1 hs
    · simpa using Or.inl h2
    · simp only [decide_eq_false_iff_not, not_le]
      constructor
      · intro h; exact Or.inr h
      · rintro (h | h)
        · exact absurd h h2
        · exact h

/-- C4 witness: the amended theorem applied at entry `100`, support `99.5`,
`ATR = 0.2` (distance `0.6%`), where the placement is accepted. -/
theorem C4_amended_witness :
    (199/2 : ℚ) ≠ 0 ∧
    (find_stop_for_long 100 (some (199/2)) (1/5)).is_valid = true := by
  refine ⟨by norm_num, ?_⟩
  have h := (C4_amended 100 (199/2) (1/5) (by norm_num)).1
  have h2 : ¬ ((find_stop_for_long 100 (some (199/2)) (1/5)).is_valid = false) := by
    rw [h]
    norm_num [min_stop_distance_pct, max_stop_distance_pct]
  simpa using h2

end BinanceBot
